import Mathlib

set_option autoImplicit false

/-!
Shallow embedding of the lokal-js client (src/lokal.ts): the server-version
compatibility check, the request layer of the API client, and the fluent
tunnel builder/handle with its create and address-query operations.

JS values are embedded as follows: a `string | undefined | null` field is an
`Option String` (with `none` for undefined/null), JS truthiness on such a
value is `truthyOS`, a number that may be NaN is an `Option Int` (with `none`
for NaN, on which every numeric comparison is false), a thrown exception is
the `thrown` constructor of `JsOutcome`, and reading a property of
`undefined` (a TypeError at runtime) is `JsError.typeError`.  Stateful
methods are state-passing functions that also return the list of API
requests they dispatched, so that "no network call was made" is a statement
about that list.
-/

/-- JS truthiness of a `string | undefined | null` value: undefined, null and
the empty string are falsy. -/
def truthyOS : Option String → Bool
  | none => false
  | some s => s != ""

/-- JS `a || b` where `a` is a `string | undefined | null` value and `b` a
string: returns `a` when truthy, else `b`. -/
def jsOrStr (a : Option String) (b : String) : String :=
  match a with
  | some s => if s != "" then s else b
  | none => b

/-- JS `String.prototype.split` with a single-character separator, on char
lists: `"a.b".split('.') = ["a","b"]`, `"".split('.') = [""]`. -/
def splitOnChar (c : Char) : List Char → List (List Char)
  | [] => [[]]
  | x :: xs =>
    if x = c then [] :: splitOnChar c xs
    else
      match splitOnChar c xs with
      | [] => [[x]]
      | h :: t => (x :: h) :: t

/-- Numeric value of a list of decimal digit characters. -/
def digitsVal (l : List Char) : Nat :=
  l.foldl (fun acc c => acc * 10 + (c.toNat - 48)) 0

/-- Models the JS `Number()` conversion on the component strings the version
check encounters: the empty string is 0, decimal digit strings (optionally
with a leading minus sign) parse as integers, anything else is NaN (`none`).
`jsNumberChars` is also applied to the `undefined` produced by destructuring
a too-short component array, via `List.getD _ _ none` below. -/
def jsNumberChars (l : List Char) : Option Int :=
  if l = [] then some 0
  else if l.all Char.isDigit then some (digitsVal l)
  else if l.head? = some '-' ∧ l.tail ≠ [] ∧ l.tail.all Char.isDigit then
    some (-(digitsVal l.tail : Int))
  else none

/-- JS `>` on numbers that may be NaN/undefined: false whenever a side is NaN. -/
def jsGT : Option Int → Option Int → Bool
  | some a, some b => decide (b < a)
  | _, _ => false

/-- JS `<` on numbers that may be NaN/undefined: false whenever a side is NaN. -/
def jsLT : Option Int → Option Int → Bool
  | some a, some b => decide (a < b)
  | _, _ => false

/-- JS `>=` on numbers that may be NaN/undefined: false whenever a side is NaN. -/
def jsGE : Option Int → Option Int → Bool
  | some a, some b => decide (b ≤ a)
  | _, _ => false

/-- `const ServerMinVersion = '0.6.0'` in src/lokal.ts. -/
def ServerMinVersion : String := "0.6.0"

/-- `version.split('.').map(Number)` of the source, with missing destructured
components read back as `none` by `List.getD _ _ none`. -/
def parseVersion (s : String) : List (Option Int) :=
  (splitOnChar '.' s.data).map jsNumberChars

/-- The comparison cascade of `Lokal.isValidVersion` after both version
strings have been split and converted: major decides first, then minor, then
`patch >= minPatch`. -/
def compareComponents (cs ms : List (Option Int)) : Bool :=
  let major := cs.getD 0 none
  let minor := cs.getD 1 none
  let patch := cs.getD 2 none
  let minMajor := ms.getD 0 none
  let minMinor := ms.getD 1 none
  let minPatch := ms.getD 2 none
  if jsGT major minMajor then true
  else if jsLT major minMajor then false
  else if jsGT minor minMinor then true
  else if jsLT minor minMinor then false
  else jsGE patch minPatch

/-- `Lokal.isValidVersion` generalized over the minimum version string it
compares against; the source always passes `ServerMinVersion`. -/
def isValidVersionAgainst (version minVersion : String) : Bool :=
  compareComponents (parseVersion version) (parseVersion minVersion)

/-- `Lokal.isValidVersion` of src/lokal.ts. -/
def isValidVersion (version : String) : Bool :=
  isValidVersionAgainst version ServerMinVersion

/-! ## The tunnel data model -/

/-- The `TunnelType` union of src/lokal.ts. -/
inductive TunnelType where
  | HTTP
  | TCP
  | UDP
deriving DecidableEq, Repr

/-- The `TunnelOptions` interface of src/lokal.ts; every field is optional. -/
structure TunnelOptions where
  basic_auth : Option (List String) := none
  cidr_allow : Option (List String) := none
  cidr_deny : Option (List String) := none
  request_header_add : Option (List String) := none
  request_header_remove : Option (List String) := none
  response_header_add : Option (List String) := none
  response_header_remove : Option (List String) := none
  header_key : Option (List String) := none
deriving DecidableEq, Repr

/-- The state of a `Tunnel` handle: the `TunnelData` fields plus the two
private flags.  Field defaults are the initializers of the class. -/
structure Tunnel where
  id : Option String := none
  name : String := ""
  tunnel_type : TunnelType := TunnelType.HTTP
  local_address : String := ""
  server_id : Option String := none
  address_tunnel : Option String := none
  address_tunnel_port : Option Nat := none
  address_public : Option String := none
  address_mdns : Option String := none
  inspect : Bool := false
  options : TunnelOptions := {}
  ignoreDuplicateFlag : Bool := false
  startupBannerFlag : Bool := false
deriving DecidableEq, Repr

/-- `Lokal.newTunnel`: a fresh handle with all fields at their initializers. -/
def newTunnel : Tunnel := {}

/-! ## The request layer -/

/-- HTTP methods the client uses. -/
inductive Method where
  | GET
  | POST
deriving DecidableEq, Repr

/-- One API request as dispatched by `Lokal.request`: the endpoint path, the
method, and the JSON body (`create` posts the whole tunnel descriptor). -/
structure ApiReq where
  endpoint : String
  method : Method
  body : Option Tunnel
deriving DecidableEq, Repr

/-- One entry of the `data` array of a daemon response, with the fields the
client reads. -/
structure TunnelEntry where
  id : Option String := none
  address_public : Option String := none
  address_mdns : Option String := none
deriving DecidableEq, Repr

/-- The parsed JSON body of a daemon response:
`\x7b success, message?, data \x7d`. -/
structure RespBody where
  success : Bool
  message : Option String := none
  data : List TunnelEntry := []
deriving DecidableEq, Repr

/-- An HTTP response as seen by `Lokal.request`: the `Lokal-Server-Version`
header (`none` when absent), `response.ok`, and the parsed body. -/
structure HttpResponse where
  serverVersion : Option String
  ok : Bool
  body : RespBody
deriving DecidableEq, Repr

/-- What `fetch` yields for one call: a network-level failure (the promise
rejects) or a received response. -/
inductive FetchResult where
  | netFail (msg : String)
  | got (r : HttpResponse)
deriving DecidableEq, Repr

/-- A thrown JS exception: an `Error` with a message, or the `TypeError`
raised by reading a property of `undefined`. -/
inductive JsError where
  | error (msg : String)
  | typeError
deriving DecidableEq, Repr

/-- Outcome of a JS async operation: a returned value or a thrown exception. -/
inductive JsOutcome (α : Type) where
  | ret (a : α)
  | thrown (e : JsError)
deriving DecidableEq, Repr

/-- The console hint logged when the daemon is unreachable. -/
def connectFailHint : String :=
  "No Lokal client running, you may need to install Lokal Client, download at https://lokal.so/download"

/-- The version-incompatibility error message. -/
def outdatedMsg : String := "Your local client might be outdated, please update"

/-- The method `Lokal.request`, as a function of the transport outcome of the
single `fetch` it performs.  A connection failure logs the hint and returns
`undefined` (no throw); a received response with a missing or incompatible
`Lokal-Server-Version` header throws the outdated-client error before the
body is consulted; a non-ok status throws the body's message (or a generic
one); otherwise the parsed body is returned.  The second component is the
console output. -/
def request (fr : FetchResult) : JsOutcome (Option RespBody) × List String :=
  match fr with
  | FetchResult.netFail msg =>
      (JsOutcome.ret none, [connectFailHint ++ " " ++ msg])
  | FetchResult.got r =>
      if !truthyOS r.serverVersion || !isValidVersion (r.serverVersion.getD "") then
        (JsOutcome.thrown (JsError.error outdatedMsg), [])
      else if !r.ok then
        (JsOutcome.thrown (JsError.error (jsOrStr r.body.message "An error occurred")), [])
      else (JsOutcome.ret (some r.body), [])

/-! ## The fluent setters -/

def Tunnel.setLocalAddress (t : Tunnel) (localAddress : String) : Tunnel :=
  { t with local_address := localAddress }

def Tunnel.setTunnelType (t : Tunnel) (tunnelType : TunnelType) : Tunnel :=
  { t with tunnel_type := tunnelType }

def Tunnel.setInspection (t : Tunnel) (inspect : Bool) : Tunnel :=
  { t with inspect := inspect }

/-- JS `s.endsWith(suffix)`, computed on the char lists so that the kernel
can evaluate it. -/
def jsEndsWith (s suffix : String) : Bool :=
  decide (suffix.data.length ≤ s.data.length) &&
  decide (s.data.drop (s.data.length - suffix.data.length) = suffix.data)

/-- JS `s.includes(c)` for a single character. -/
def jsIncludes (s : String) (c : Char) : Bool := decide (c ∈ s.data)

/-- The string with its last n characters removed. -/
def dropRightStr (s : String) (n : Nat) : String :=
  String.mk (s.data.take (s.data.length - n))

/-- The normalization `lanAddress.replace(/\.local$/, '')`: strip one
trailing ".local" suffix when present. -/
def stripLocalSuffix (s : String) : String :=
  if jsEndsWith s ".local" then dropRightStr s 6 else s

/-- `Tunnel.setLANAddress`: a falsy argument stores the empty string, a
truthy one is stored with one trailing ".local" stripped. -/
def Tunnel.setLANAddress (t : Tunnel) (lanAddress : Option String) : Tunnel :=
  if truthyOS lanAddress then
    { t with address_mdns := some (stripLocalSuffix (lanAddress.getD "")) }
  else { t with address_mdns := some "" }

/-- `Tunnel.setPublicAddress`: stores `publicAddress || ''`. -/
def Tunnel.setPublicAddress (t : Tunnel) (publicAddress : Option String) : Tunnel :=
  { t with address_public := some (jsOrStr publicAddress "") }

/-- `Tunnel.setName`: stores `name || ''`. -/
def Tunnel.setName (t : Tunnel) (name : Option String) : Tunnel :=
  { t with name := jsOrStr name "" }

def Tunnel.ignoreDuplicate (t : Tunnel) : Tunnel :=
  { t with ignoreDuplicateFlag := true }

def Tunnel.showStartupBanner (t : Tunnel) : Tunnel :=
  { t with startupBannerFlag := true }

/-! ## The request-performing tunnel operations

Each takes the transport as an oracle `tr : ApiReq → FetchResult` giving the
fetch outcome of any request dispatched, and returns the operation's outcome,
the post-state of the handle, and the list of requests dispatched (in order).
The cosmetic banner printing of `create` is console-only and not modelled. -/

/-- `Tunnel.create` of src/lokal.ts. -/
def Tunnel.create (t : Tunnel) (tr : ApiReq → FetchResult) :
    JsOutcome Tunnel × Tunnel × List ApiReq :=
  if !truthyOS t.address_mdns && !truthyOS t.address_public then
    (JsOutcome.thrown (JsError.error "Please enable either LAN address or random/custom public URL"),
     t, [])
  else
    let req : ApiReq := ⟨"/api/tunnel/start", Method.POST, some t⟩
    match (request (tr req)).1 with
    | JsOutcome.thrown e => (JsOutcome.thrown e, t, [req])
    | JsOutcome.ret none => (JsOutcome.thrown JsError.typeError, t, [req])
    | JsOutcome.ret (some body) =>
      match body.data with
      | [] =>
        (JsOutcome.thrown (JsError.error (jsOrStr body.message "Tunnel creation failing")),
         t, [req])
      | entry :: _ =>
        if !body.success then
          (JsOutcome.thrown (JsError.error (jsOrStr body.message "Tunnel creation failing")),
           t, [req])
        else
          let tNew := { t with address_public := entry.address_public,
                               address_mdns := entry.address_mdns,
                               id := entry.id }
          (JsOutcome.ret tNew, tNew, [req])

/-- `Tunnel.getLANAddress` of src/lokal.ts (performs no request). -/
def Tunnel.getLANAddress (t : Tunnel) : JsOutcome String :=
  if !truthyOS t.address_mdns then
    JsOutcome.thrown (JsError.error "LAN address is not being set")
  else
    let m := t.address_mdns.getD ""
    if jsEndsWith m ".local" then JsOutcome.ret m else JsOutcome.ret (m ++ ".local")

/-- `Tunnel.updatePublicURLPort` of src/lokal.ts. -/
def Tunnel.updatePublicURLPort (t : Tunnel) (tr : ApiReq → FetchResult) :
    JsOutcome Unit × Tunnel × List ApiReq :=
  if !truthyOS t.id then
    (JsOutcome.thrown (JsError.error "Tunnel ID is not set"), t, [])
  else
    let req : ApiReq := ⟨"/api/tunnel/info/" ++ t.id.getD "", Method.GET, none⟩
    match (request (tr req)).1 with
    | JsOutcome.thrown e => (JsOutcome.thrown e, t, [req])
    | JsOutcome.ret none => (JsOutcome.thrown JsError.typeError, t, [req])
    | JsOutcome.ret (some body) =>
      match body.data with
      | [] => (JsOutcome.thrown (JsError.error "Could not get tunnel info"), t, [req])
      | entry :: _ =>
        if !body.success then
          (JsOutcome.thrown (JsError.error "Could not get tunnel info"), t, [req])
        else
          match entry.address_public with
          | none => (JsOutcome.thrown JsError.typeError, t, [req])
          | some ap =>
            if !(jsIncludes ap ':') then
              (JsOutcome.thrown (JsError.error "Could not get assigned port"), t, [req])
            else (JsOutcome.ret (), { t with address_public := some ap }, [req])

/-- The retry-later error message of `getPublicAddress`. -/
def notAssignedMsg : String :=
  "Tunnel is using a random port, but it has not been assigned yet. Please try again later"

/-- `Tunnel.getPublicAddress` of src/lokal.ts. -/
def Tunnel.getPublicAddress (t : Tunnel) (tr : ApiReq → FetchResult) :
    JsOutcome String × Tunnel × List ApiReq :=
  if !truthyOS t.address_public then
    (JsOutcome.thrown (JsError.error "Public address is not requested by client"), t, [])
  else if t.tunnel_type ≠ TunnelType.HTTP ∧ !(jsIncludes (t.address_public.getD "") ':') then
    match t.updatePublicURLPort tr with
    | (JsOutcome.thrown e, tNew, reqs) => (JsOutcome.thrown e, tNew, reqs)
    | (JsOutcome.ret _, tNew, reqs) =>
      (JsOutcome.thrown (JsError.error notAssignedMsg), tNew, reqs)
  else (JsOutcome.ret (t.address_public.getD ""), t, [])

/-! ## Helper lemmas -/

theorem splitOnChar_not_mem (c : Char) (l : List Char) (h : c ∉ l) :
    splitOnChar c l = [l] := by
  induction l with
  | nil => rfl
  | cons x xs ih =>
    have hx : ¬ x = c := fun hxc => h (hxc ▸ List.mem_cons_self x xs)
    have hxs : c ∉ xs := fun hm => h (List.mem_cons_of_mem _ hm)
    simp [splitOnChar, hx, ih hxs]

theorem splitOnChar_append (c : Char) (l1 l2 : List Char) (h : c ∉ l1) :
    splitOnChar c (l1 ++ c :: l2) = l1 :: splitOnChar c l2 := by
  induction l1 with
  | nil => simp [splitOnChar]
  | cons x xs ih =>
    have hx : ¬ x = c := fun hxc => h (hxc ▸ List.mem_cons_self x xs)
    have hxs : c ∉ xs := fun hm => h (List.mem_cons_of_mem _ hm)
    simp [splitOnChar, hx, ih hxs]

theorem jsNumberChars_no_dot {l : List Char} {v : Int}
    (h : jsNumberChars l = some v) : '.' ∉ l := by
  intro hm
  unfold jsNumberChars at h
  split at h
  · next hnil => rw [hnil] at hm; exact absurd hm (List.not_mem_nil _)
  · next hnil =>
    split at h
    · next hdig =>
      have hd := List.all_eq_true.mp hdig '.' hm
      exact absurd hd (by decide)
    · next =>
      split at h
      · next hcond =>
        obtain ⟨hhead, _, htail⟩ := hcond
        cases l with
        | nil => exact hnil rfl
        | cons a t =>
          have ha : a = '-' := by
            simpa using hhead
          rcases List.mem_cons.mp hm with h1 | h2
          · rw [ha] at h1; exact absurd h1 (by decide)
          · have hd := List.all_eq_true.mp htail '.' (by simpa using h2)
            exact absurd hd (by decide)
      · exact absurd h (by simp)

theorem jsGT_some_some (a b : Int) : jsGT (some a) (some b) = decide (b < a) := rfl

theorem jsGT_none_left (x : Option Int) : jsGT none x = false := rfl

theorem jsGT_none_right (x : Option Int) : jsGT x none = false := by cases x <;> rfl

theorem jsLT_some_some (a b : Int) : jsLT (some a) (some b) = decide (a < b) := rfl

theorem jsLT_none_left (x : Option Int) : jsLT none x = false := rfl

theorem jsLT_none_right (x : Option Int) : jsLT x none = false := by cases x <;> rfl

theorem jsGE_some_some (a b : Int) : jsGE (some a) (some b) = decide (b ≤ a) := rfl

theorem jsGE_none_left (x : Option Int) : jsGE none x = false := rfl

theorem jsGE_none_right (x : Option Int) : jsGE x none = false := by cases x <;> rfl

theorem compareComponents_triple (M m p Mm mm pm : Option Int) :
    compareComponents [M, m, p] [Mm, mm, pm] =
      if jsGT M Mm then true
      else if jsLT M Mm then false
      else if jsGT m mm then true
      else if jsLT m mm then false
      else jsGE p pm := rfl

/-! ## Claim theorems -/

/-- C1: against the fixed minimum 0.6.0, the version check accepts a
candidate of the form a.b.c exactly when a > 0, or a = 0 and b > 6, or
a = 0 and b = 6 and c ≥ 0; and the component comparison is reflexive,
accepts a greater-or-equal patch at equal major.minor, accepts a greater
minor at equal major regardless of patch, and rejects a lesser major
regardless of minor and patch. -/
theorem C1_version_check :
    (∀ (sa sb sc : List Char) (a b c : Nat),
        jsNumberChars sa = some (a : Int) →
        jsNumberChars sb = some (b : Int) →
        jsNumberChars sc = some (c : Int) →
        (isValidVersion (String.mk (sa ++ '.' :: (sb ++ '.' :: sc))) = true ↔
          (0 < a ∨ (a = 0 ∧ 6 < b) ∨ (a = 0 ∧ b = 6 ∧ 0 ≤ c)))) ∧
    (∀ x y z : Int,
        compareComponents [some x, some y, some z] [some x, some y, some z] = true) ∧
    (∀ x y z z' : Int, z' ≤ z →
        compareComponents [some x, some y, some z] [some x, some y, some z'] = true) ∧
    (∀ x y y' z z' : Int, y' < y →
        compareComponents [some x, some y, some z] [some x, some y', some z'] = true) ∧
    (∀ x x' y y' z z' : Int, x < x' →
        compareComponents [some x, some y, some z] [some x', some y', some z'] = false) := by
  refine ⟨?_, ?_, ?_, ?_, ?_⟩
  · intro sa sb sc a b c ha hb hc
    have hda : '.' ∉ sa := jsNumberChars_no_dot ha
    have hdb : '.' ∉ sb := jsNumberChars_no_dot hb
    have hdc : '.' ∉ sc := jsNumberChars_no_dot hc
    have hparse : parseVersion (String.mk (sa ++ '.' :: (sb ++ '.' :: sc))) =
        [some (a : Int), some (b : Int), some (c : Int)] := by
      show (splitOnChar '.' (sa ++ '.' :: (sb ++ '.' :: sc))).map jsNumberChars = _
      rw [splitOnChar_append _ _ _ hda, splitOnChar_append _ _ _ hdb,
        splitOnChar_not_mem _ _ hdc]
      simp [ha, hb, hc]
    have hmin : parseVersion ServerMinVersion = [some 0, some 6, some 0] := by decide
    show compareComponents _ (parseVersion ServerMinVersion) = true ↔ _
    rw [hparse, hmin, compareComponents_triple]
    simp only [jsGT_some_some, jsLT_some_some, jsGE_some_some, decide_eq_true_eq]
    split_ifs with h1 h2 h3 h4 <;> simp <;> omega
  · intro x y z
    rw [compareComponents_triple]
    simp only [jsGT_some_some, jsLT_some_some, jsGE_some_some, decide_eq_true_eq]
    rw [if_neg (lt_irrefl x), if_neg (lt_irrefl x), if_neg (lt_irrefl y),
      if_neg (lt_irrefl y)]
    exact decide_eq_true (le_refl z)
  · intro x y z z' h
    rw [compareComponents_triple]
    simp only [jsGT_some_some, jsLT_some_some, jsGE_some_some, decide_eq_true_eq]
    rw [if_neg (lt_irrefl x), if_neg (lt_irrefl x), if_neg (lt_irrefl y),
      if_neg (lt_irrefl y)]
    exact decide_eq_true h
  · intro x y y' z z' h
    rw [compareComponents_triple]
    simp only [jsGT_some_some, jsLT_some_some, jsGE_some_some, decide_eq_true_eq]
    rw [if_neg (lt_irrefl x), if_neg (lt_irrefl x), if_pos h]
  · intro x x' y y' z z' h
    rw [compareComponents_triple]
    simp only [jsGT_some_some, jsLT_some_some, jsGE_some_some, decide_eq_true_eq]
    rw [if_neg (by omega), if_pos h]

/-- Witness for C1 at concrete inputs: the string "1.2.3" is accepted, and
0.6.1 compared component-wise against minimum 0.6.0 is accepted. -/
theorem C1_version_check_witness :
    isValidVersion (String.mk ['1', '.', '2', '.', '3']) = true ∧
    compareComponents [some 0, some 6, some 1] [some 0, some 6, some 0] = true := by
  constructor
  · exact (C1_version_check.1 ['1'] ['2'] ['3'] 1 2 3 (by decide) (by decide)
      (by decide)).mpr (Or.inl (by decide))
  · exact C1_version_check.2.2.1 0 6 1 0 (by decide)

/-- C2: with both the LAN address and the public address falsy (unset or
empty), `create` throws the precondition error immediately, dispatches no
request at all, and leaves the handle's state unchanged. -/
theorem C2_create_precondition (t : Tunnel) (tr : ApiReq → FetchResult)
    (hm : truthyOS t.address_mdns = false) (hp : truthyOS t.address_public = false) :
    t.create tr =
      (JsOutcome.thrown
        (JsError.error "Please enable either LAN address or random/custom public URL"),
       t, []) := by
  simp [Tunnel.create, hm, hp]

/-- Witness for C2 at a fresh handle. -/
theorem C2_create_precondition_witness :
    newTunnel.create (fun _ => FetchResult.netFail "") =
      (JsOutcome.thrown
        (JsError.error "Please enable either LAN address or random/custom public URL"),
       newTunnel, []) :=
  C2_create_precondition newTunnel _ rfl rfl

/-- C6: a received response whose Lokal-Server-Version header is absent or
fails the version check makes `request` throw the outdated-client error,
whatever the status and body are; the equality holds for every `ok` flag and
body, so the body is not consulted. -/
theorem C6_version_gate (r : HttpResponse)
    (h : r.serverVersion = none ∨
      ∀ v, r.serverVersion = some v → isValidVersion v = false) :
    request (FetchResult.got r) =
      (JsOutcome.thrown (JsError.error outdatedMsg), []) := by
  cases hv : r.serverVersion with
  | none => simp [request, hv, truthyOS]
  | some v =>
    have hval : isValidVersion v = false := by
      rcases h with h | h
      · rw [h] at hv; cases hv
      · exact h v hv
    by_cases hve : v = ""
    · subst hve; simp [request, hv, truthyOS]
    · simp [request, hv, truthyOS, hve, hval]

/-- Witness for C6: status 200 with a well-formed successful body but no
version header still throws the outdated-client error. -/
theorem C6_version_gate_witness :
    request (FetchResult.got ⟨none, true, ⟨true, some "hello", []⟩⟩) =
      (JsOutcome.thrown (JsError.error outdatedMsg), []) :=
  C6_version_gate _ (Or.inl rfl)

/-- C7: a network-level transport failure makes `request` log the diagnostic
hint and return `undefined` instead of throwing. -/
theorem C7_transport_failure (msg : String) :
    request (FetchResult.netFail msg) =
      (JsOutcome.ret none, [connectFailHint ++ " " ++ msg]) := rfl

/-- C8: `setPublicAddress` stores the empty string for every falsy input
(undefined/null, both embedded as `none`, or the empty string) and stores a
truthy input unchanged; `setName` behaves identically for the name field. -/
theorem C8_falsy_setters :
    (∀ t : Tunnel, (t.setPublicAddress none).address_public = some "") ∧
    (∀ t : Tunnel, (t.setPublicAddress (some "")).address_public = some "") ∧
    (∀ (t : Tunnel) (s : String), s ≠ "" →
        (t.setPublicAddress (some s)).address_public = some s) ∧
    (∀ t : Tunnel, (t.setName none).name = "") ∧
    (∀ t : Tunnel, (t.setName (some "")).name = "") ∧
    (∀ (t : Tunnel) (s : String), s ≠ "" → (t.setName (some s)).name = s) := by
  refine ⟨fun t => rfl, fun t => rfl, ?_, fun t => rfl, fun t => rfl, ?_⟩
  · intro t s hs
    simp [Tunnel.setPublicAddress, jsOrStr, hs]
  · intro t s hs
    simp [Tunnel.setName, jsOrStr, hs]

/-- Witness for C8 at concrete inputs. -/
theorem C8_falsy_setters_witness :
    (newTunnel.setPublicAddress (some "my-app")).address_public = some "my-app" ∧
    (newTunnel.setPublicAddress none).address_public = some "" :=
  ⟨C8_falsy_setters.2.2.1 newTunnel "my-app" (by decide), C8_falsy_setters.1 newTunnel⟩

/-- C10: each fluent setter rewrites exactly its designated field or flag and
leaves every other field unchanged (in the source each returns `this`, so the
returned handle is the mutated handle itself); consequently setters aimed at
different fields commute, as the sample commutations state. -/
theorem C10_setter_frame :
    (∀ (t : Tunnel) (v : String), t.setLocalAddress v = { t with local_address := v }) ∧
    (∀ (t : Tunnel) (v : TunnelType), t.setTunnelType v = { t with tunnel_type := v }) ∧
    (∀ (t : Tunnel) (v : Bool), t.setInspection v = { t with inspect := v }) ∧
    (∀ (t : Tunnel) (v : Option String), ∃ m : String,
        t.setLANAddress v = { t with address_mdns := some m }) ∧
    (∀ (t : Tunnel) (v : Option String), ∃ p : String,
        t.setPublicAddress v = { t with address_public := some p }) ∧
    (∀ (t : Tunnel) (v : Option String), ∃ n : String,
        t.setName v = { t with name := n }) ∧
    (∀ t : Tunnel, t.ignoreDuplicate = { t with ignoreDuplicateFlag := true }) ∧
    (∀ t : Tunnel, t.showStartupBanner = { t with startupBannerFlag := true }) ∧
    (∀ (t : Tunnel) (v : String) (w : TunnelType),
        (t.setLocalAddress v).setTunnelType w = (t.setTunnelType w).setLocalAddress v) ∧
    (∀ (t : Tunnel) (v w : Option String),
        (t.setLANAddress v).setPublicAddress w = (t.setPublicAddress w).setLANAddress v) := by
  refine ⟨fun t v => rfl, fun t v => rfl, fun t v => rfl, ?_, ?_, ?_,
    fun t => rfl, fun t => rfl, fun t v w => rfl, ?_⟩
  · intro t v
    unfold Tunnel.setLANAddress
    by_cases h : truthyOS v = true
    · exact ⟨_, by rw [if_pos h]⟩
    · exact ⟨"", by rw [if_neg (by simp [h])]⟩
  · intro t v
    exact ⟨_, rfl⟩
  · intro t v
    exact ⟨_, rfl⟩
  · intro t v w
    unfold Tunnel.setLANAddress Tunnel.setPublicAddress
    by_cases h : truthyOS v = true <;> simp [h]

/-- C5 counterexample: ".local" is a non-empty input, the setter stores the
empty string for it (the suffix is stripped), and the subsequent
`getLANAddress` then throws instead of returning the stored value with
".local" appended. -/
theorem C5_counterexample :
    (newTunnel.setLANAddress (some ".local")).address_mdns = some "" ∧
    (newTunnel.setLANAddress (some ".local")).getLANAddress =
      JsOutcome.thrown (JsError.error "LAN address is not being set") := by
  constructor <;> decide

/-- C5 (amended): a non-empty input is stored with one trailing ".local"
suffix removed; when the stored value is itself non-empty, `getLANAddress`
returns it with ".local" appended unless already present, so "foo.local"
round-trips; when the stored LAN address is falsy (never set, or emptied as
by the input ".local"), `getLANAddress` fails. -/
theorem C5_lan_roundtrip :
    (∀ (t : Tunnel) (s : String), s ≠ "" →
        (t.setLANAddress (some s)).address_mdns =
          some (if jsEndsWith s ".local" then dropRightStr s 6 else s)) ∧
    (∀ (t : Tunnel) (s : String), s ≠ "" → stripLocalSuffix s ≠ "" →
        (t.setLANAddress (some s)).getLANAddress =
          (if jsEndsWith (stripLocalSuffix s) ".local" then
            JsOutcome.ret (stripLocalSuffix s)
          else JsOutcome.ret (stripLocalSuffix s ++ ".local"))) ∧
    (∀ t : Tunnel, (t.setLANAddress (some "foo.local")).address_mdns = some "foo" ∧
        (t.setLANAddress (some "foo.local")).getLANAddress = JsOutcome.ret "foo.local") ∧
    (∀ t : Tunnel, truthyOS t.address_mdns = false →
        t.getLANAddress = JsOutcome.thrown (JsError.error "LAN address is not being set")) := by
  have hset : ∀ (t : Tunnel) (s : String), s ≠ "" →
      t.setLANAddress (some s) = { t with address_mdns := some (stripLocalSuffix s) } := by
    intro t s hs
    unfold Tunnel.setLANAddress
    rw [if_pos (by simp [truthyOS, hs])]
    rfl
  refine ⟨?_, ?_, ?_, ?_⟩
  · intro t s hs
    rw [hset t s hs]
    rfl
  · intro t s hs hst
    rw [hset t s hs]
    unfold Tunnel.getLANAddress
    rw [if_neg (by simp [truthyOS, hst])]
    simp only [Option.getD_some]
  · intro t
    have h1 : stripLocalSuffix "foo.local" = "foo" := by decide
    have hs := hset t "foo.local" (by decide)
    rw [h1] at hs
    constructor
    · rw [hs]
    · rw [hs]
      simp only [Tunnel.getLANAddress]
      decide
  · intro t h
    unfold Tunnel.getLANAddress
    rw [if_pos (by simp [h])]

/-- Witness for C5 at a concrete input without the suffix. -/
theorem C5_lan_roundtrip_witness :
    (newTunnel.setLANAddress (some "my-app")).getLANAddress =
      JsOutcome.ret "my-app.local" := by
  have h := C5_lan_roundtrip.2.1 newTunnel "my-app" (by decide) (by decide)
  rw [h]
  decide

theorem updatePublicURLPort_reqs (t : Tunnel) (tr : ApiReq → FetchResult)
    (h : truthyOS t.id = true) :
    (t.updatePublicURLPort tr).2.2 =
      [⟨"/api/tunnel/info/" ++ t.id.getD "", Method.GET, none⟩] := by
  unfold Tunnel.updatePublicURLPort
  rw [if_neg (by simp [h])]
  dsimp only
  repeat' split
  all_goals rfl

/-- C3 (amended): with a truthy non-HTTP public address lacking a port
separator, `getPublicAddress` delegates to `updatePublicURLPort`; when the
handle has a truthy id this dispatches exactly one GET to the tunnel-info
endpoint, and the "not yet assigned, retry later" error is thrown only when
the refresh returned normally — a refresh that itself throws (undefined
response, unsuccessful or empty response, or an address still lacking a
port) propagates its own error instead, and a falsy id throws "Tunnel ID is
not set" with no request dispatched at all. -/
theorem C3_random_port_refresh (t : Tunnel) (tr : ApiReq → FetchResult)
    (hpub : truthyOS t.address_public = true)
    (hty : t.tunnel_type ≠ TunnelType.HTTP)
    (hcol : jsIncludes (t.address_public.getD "") ':' = false) :
    ((truthyOS t.id = false →
        t.getPublicAddress tr =
          (JsOutcome.thrown (JsError.error "Tunnel ID is not set"), t, [])) ∧
     (truthyOS t.id = true →
        (t.getPublicAddress tr).2.2 =
          [⟨"/api/tunnel/info/" ++ t.id.getD "", Method.GET, none⟩]) ∧
     (∀ u tN reqs, t.updatePublicURLPort tr = (JsOutcome.ret u, tN, reqs) →
        t.getPublicAddress tr =
          (JsOutcome.thrown (JsError.error notAssignedMsg), tN, reqs)) ∧
     (∀ e tN reqs, t.updatePublicURLPort tr = (JsOutcome.thrown e, tN, reqs) →
        t.getPublicAddress tr = (JsOutcome.thrown e, tN, reqs))) := by
  have hbranch : t.getPublicAddress tr =
      match t.updatePublicURLPort tr with
      | (JsOutcome.thrown e, tN, reqs) => (JsOutcome.thrown e, tN, reqs)
      | (JsOutcome.ret _, tN, reqs) =>
        (JsOutcome.thrown (JsError.error notAssignedMsg), tN, reqs) := by
    unfold Tunnel.getPublicAddress
    rw [if_neg (by simp [hpub]), if_pos ⟨hty, by simp [hcol]⟩]
  refine ⟨?_, ?_, ?_, ?_⟩
  · intro hid
    have hupd : t.updatePublicURLPort tr =
        (JsOutcome.thrown (JsError.error "Tunnel ID is not set"), t, []) := by
      unfold Tunnel.updatePublicURLPort
      rw [if_pos (by simp [hid])]
    rw [hbranch, hupd]
  · intro hid
    rw [hbranch]
    have hreqs := updatePublicURLPort_reqs t tr hid
    rcases hu : t.updatePublicURLPort tr with ⟨out, tN, reqs⟩
    rw [hu] at hreqs
    cases out <;> simpa using hreqs
  · intro u tN reqs hu
    rw [hbranch, hu]
  · intro e tN reqs hu
    rw [hbranch, hu]

/-- C3 counterexample: tunnel type TCP, stored public address "1.2.3.4"
without a port separator, but no id on the handle — `getPublicAddress` throws
"Tunnel ID is not set" (not the "not yet assigned, retry later" error) and
dispatches zero refresh requests rather than exactly one. -/
theorem C3_counterexample :
    ({ address_public := some "1.2.3.4", tunnel_type := TunnelType.TCP } : Tunnel).getPublicAddress
        (fun _ => FetchResult.netFail "") =
      (JsOutcome.thrown (JsError.error "Tunnel ID is not set"),
       { address_public := some "1.2.3.4", tunnel_type := TunnelType.TCP }, []) := by
  decide

/-- Witness for C3 at a handle with a truthy id and an unreachable daemon:
exactly one GET to the info endpoint is dispatched and the refresh's own
TypeError propagates. -/
theorem C3_random_port_refresh_witness :
    (({ address_public := some "1.2.3.4", tunnel_type := TunnelType.TCP,
        id := some "abc" } : Tunnel).getPublicAddress
          (fun _ => FetchResult.netFail "x")).2.2 =
      [⟨"/api/tunnel/info/" ++ (some "abc" : Option String).getD "", Method.GET, none⟩] :=
  (C3_random_port_refresh
    { address_public := some "1.2.3.4", tunnel_type := TunnelType.TCP, id := some "abc" }
    (fun _ => FetchResult.netFail "x")
    (by decide) (by decide) (by decide)).2.1 (by decide)

/-- C4: when the start request yields a parsed body, `create` dispatches
exactly the one POST to the tunnel-start endpoint; with `success` true and a
non-empty data list it overwrites exactly the handle's address_public,
address_mdns and id from the first entry and returns the updated handle,
while with `success` false or an empty data list it throws the body's
message when truthy (else the generic message) and assigns none of those
fields, leaving the handle unchanged. -/
theorem C4_create_result (t : Tunnel) (tr : ApiReq → FetchResult) (body : RespBody)
    (hpre : truthyOS t.address_mdns = true ∨ truthyOS t.address_public = true)
    (hresp : (request (tr ⟨"/api/tunnel/start", Method.POST, some t⟩)).1 =
      JsOutcome.ret (some body)) :
    ((∀ entry rest, body.data = entry :: rest → body.success = true →
        t.create tr =
          (JsOutcome.ret { t with address_public := entry.address_public,
                                  address_mdns := entry.address_mdns,
                                  id := entry.id },
           { t with address_public := entry.address_public,
                    address_mdns := entry.address_mdns,
                    id := entry.id },
           [⟨"/api/tunnel/start", Method.POST, some t⟩])) ∧
     (body.success = false ∨ body.data = [] →
        t.create tr =
          (JsOutcome.thrown (JsError.error (jsOrStr body.message "Tunnel creation failing")),
           t, [⟨"/api/tunnel/start", Method.POST, some t⟩]))) := by
  have hcond : (!truthyOS t.address_mdns && !truthyOS t.address_public) = false := by
    rcases hpre with h | h <;> simp [h]
  have hstep : t.create tr =
      match body.data with
      | [] =>
        (JsOutcome.thrown (JsError.error (jsOrStr body.message "Tunnel creation failing")),
         t, [⟨"/api/tunnel/start", Method.POST, some t⟩])
      | entry :: _ =>
        if !body.success then
          (JsOutcome.thrown (JsError.error (jsOrStr body.message "Tunnel creation failing")),
           t, [⟨"/api/tunnel/start", Method.POST, some t⟩])
        else
          (JsOutcome.ret { t with address_public := entry.address_public,
                                  address_mdns := entry.address_mdns,
                                  id := entry.id },
           { t with address_public := entry.address_public,
                    address_mdns := entry.address_mdns,
                    id := entry.id },
           [⟨"/api/tunnel/start", Method.POST, some t⟩]) := by
    unfold Tunnel.create
    rw [if_neg (by simp [hcond])]
    dsimp only
    rw [hresp]
  constructor
  · intro entry rest hdata hsucc
    rw [hstep, hdata, hsucc]
    simp
  · intro hfail
    rcases hfail with hs | hd
    · rw [hstep]
      cases hdata : body.data with
      | nil => rfl
      | cons entry rest => simp [hs]
    · rw [hstep, hd]

/-- Witness for C4: the mocked daemon of the spec example; a handle
configured via `setPublicAddress("my-app")` ends with id "abc" and public
address "my-app.example.com". -/
theorem C4_create_result_witness :
    (newTunnel.setPublicAddress (some "my-app")).create
        (fun _ => FetchResult.got ⟨some "0.6.0", true,
          ⟨true, none, [⟨some "abc", some "my-app.example.com", some "my-app"⟩]⟩⟩) =
      (JsOutcome.ret { newTunnel with address_public := some "my-app.example.com",
                                      address_mdns := some "my-app", id := some "abc" },
       { newTunnel with address_public := some "my-app.example.com",
                        address_mdns := some "my-app", id := some "abc" },
       [⟨"/api/tunnel/start", Method.POST,
         some (newTunnel.setPublicAddress (some "my-app"))⟩]) := by
  have h := (C4_create_result (newTunnel.setPublicAddress (some "my-app"))
      (fun _ => FetchResult.got ⟨some "0.6.0", true,
        ⟨true, none, [⟨some "abc", some "my-app.example.com", some "my-app"⟩]⟩⟩)
      ⟨true, none, [⟨some "abc", some "my-app.example.com", some "my-app"⟩]⟩
      (Or.inr (by decide)) (by decide)).1
      ⟨some "abc", some "my-app.example.com", some "my-app"⟩ [] rfl rfl
  rw [h]
  decide

/-- C9 counterexample: "1.x.0" does not consist of three numeric components,
yet the version check accepts it: major 1 > 0 already decides acceptance
before the NaN minor is ever compared. -/
theorem C9_counterexample : isValidVersion "1.x.0" = true := by decide

/-- C9 (amended): a component that parses as NaN makes every comparison
against it false, so the check falls through that level; a malformed version
string is rejected exactly when no comparison on the way decides acceptance.
Against the minimum 0.6.0 a three-component version is accepted iff its
major parses positive, or its major is 0 or NaN while its minor parses
greater than 6, or its major is 0 or NaN, its minor 6 or NaN, and its patch
parses non-negative; in particular "0.6" and "abc" are rejected but
"x.y.3" is accepted. -/
theorem C9_malformed_versions :
    (∀ M m p : Option Int,
        compareComponents [M, m, p] [some 0, some 6, some 0] = true ↔
          ((∃ k, M = some k ∧ 0 < k) ∨
           ((M = none ∨ M = some 0) ∧ ∃ j, m = some j ∧ 6 < j) ∨
           ((M = none ∨ M = some 0) ∧ (m = none ∨ m = some 6) ∧
             ∃ i, p = some i ∧ 0 ≤ i))) ∧
    isValidVersion "0.6" = false ∧
    isValidVersion "abc" = false ∧
    isValidVersion "x.y.3" = true := by
  refine ⟨?_, by decide, by decide, by decide⟩
  intro M m p
  rw [compareComponents_triple]
  rcases M with _ | k <;> rcases m with _ | j <;> rcases p with _ | i <;>
    simp only [jsGT_some_some, jsGT_none_left, jsGT_none_right,
      jsLT_some_some, jsLT_none_left, jsLT_none_right,
      jsGE_some_some, jsGE_none_left, jsGE_none_right,
      decide_eq_true_eq] <;>
    split_ifs <;> simp_all <;> omega
